import Mathlib

/-!
Shallow embedding of the `audio-time` crate: a `System` format descriptor
(sample rate, channel layout, sample type), the quantity constructors
`Samples::new` / `Bytes::new`, and the conversion engine of `src/convert.rs`
between frame counts, sample counts, byte counts and wall-clock durations.

Machine integers are embedded as `Nat` with explicit range checks where the
source performs checked arithmetic (`usize` = `u64` on the 64-bit target the
source is gated to with `cfg(target_pointer_width = "64")`).  A Rust
`Result<_, OverflowError>` whose `Ok` arm can also panic (via `.unwrap()`)
is embedded as `RResult`, with a distinct `panicked` outcome.
-/

namespace AudioTime

/-- `usize::MAX` on the 64-bit target (`target_pointer_width = "64"`). -/
def USIZE_MAX : Nat := 2 ^ 64 - 1

/-- `u64::MAX`. -/
def U64_MAX : Nat := 2 ^ 64 - 1

/-- `u128::MAX`. -/
def U128_MAX : Nat := 2 ^ 128 - 1

/-- `u32::MAX`. -/
def U32_MAX : Nat := 2 ^ 32 - 1

/-- `usize::checked_mul`: `some` of the product when it fits in `usize`,
`none` on overflow. -/
def checked_mul_usize (a b : Nat) : Option Nat :=
  if a * b ≤ USIZE_MAX then some (a * b) else none

/-- `u128::checked_mul`. -/
def checked_mul_u128 (a b : Nat) : Option Nat :=
  if a * b ≤ U128_MAX then some (a * b) else none

/-- `ChannelLayout` (`src/channel_layout.rs`): closed enumeration. -/
inductive ChannelLayout where
  | Mono
  | Stereo
deriving DecidableEq, Repr

/-- `ChannelLayout::channels` (`src/channel_layout.rs`): Mono → 1, Stereo → 2
(a `NonZeroU8` in the source). -/
def ChannelLayout.channels : ChannelLayout → Nat
  | .Mono => 1
  | .Stereo => 2

/-- `SampleType` (`src/sample.rs`): byte width of one sample (`NonZeroU8`,
`size_of` of the source type) plus the unique per-type identity tag. -/
structure SampleType where
  byte_depth : Nat
  type_id : Nat
deriving DecidableEq, Repr

/-- `SampleType::new::<i16>()`: `size_of::<i16>() = 2`, `TYPE_ID = 6`
(`impl_sample!(i16, 6)` in `src/sample.rs`). -/
def sampleTypeI16 : SampleType := ⟨2, 6⟩

/-- `System` (`src/system.rs`): the immutable format descriptor.  The
`SampleRate` field is its `NonZeroU32` value. -/
structure System where
  sample_rate : Nat
  channel_layout : ChannelLayout
  sample_type : SampleType
deriving DecidableEq, Repr

/-- `System::frame_size` (`src/system.rs`): `channels().checked_mul(byte_depth())`
on `NonZeroU8`, so `some` of the product when it fits in a `u8` and `none`
when the `expect` would abort (product > 255). -/
def System.frame_size (s : System) : Option Nat :=
  if s.channel_layout.channels * s.sample_type.byte_depth ≤ 255 then
    some (s.channel_layout.channels * s.sample_type.byte_depth)
  else
    none

/-- The numeric value `frame_size().get()` takes whenever `frame_size` does
not abort: the product channels × byte depth. -/
def System.frame_size_val (s : System) : Nat :=
  s.channel_layout.channels * s.sample_type.byte_depth

/-- Modelled from the spec: `System::sample_size`, called by `Bytes::new` in
`src/bytes.rs`, is not defined anywhere under `src/`.  The spec fixes the
`Bytes` invariant as divisibility by `frame_size`, and defines
frame size = channel count × sample byte width, so the missing method is
modelled as that product. -/
def System.sample_size (s : System) : Nat :=
  s.channel_layout.channels * s.sample_type.byte_depth

/-- Range constraints the source's machine-integer types impose on a `System`
value: the sample rate is a `NonZeroU32`, the byte depth a `NonZeroU8`, and
`frame_size()` does not abort. -/
def System.Valid (s : System) : Prop :=
  1 ≤ s.sample_rate ∧ s.sample_rate ≤ U32_MAX ∧
    1 ≤ s.sample_type.byte_depth ∧ s.sample_type.byte_depth ≤ 255 ∧
    s.channel_layout.channels * s.sample_type.byte_depth ≤ 255

instance (s : System) : Decidable s.Valid := by
  unfold System.Valid
  infer_instance

/-- `Samples::new` (`src/samples.rs`): keeps the value iff
`n % usize::from(SYS.frame_size().get()) == 0`.  (On any `Valid` system
`frame_size().get()` is `frame_size_val`.) -/
def Samples.new (s : System) (n : Nat) : Option Nat :=
  if n % s.frame_size_val = 0 then some n else none

/-- `Bytes::new` (`src/bytes.rs`): keeps the value iff
`n % usize::from(SYS.sample_size().get()) == 0`. -/
def Bytes.new (s : System) (n : Nat) : Option Nat :=
  if n % s.sample_size = 0 then some n else none

/-- Outcome of a source function returning `Result<_, OverflowError>` whose
`Ok` arm is built with `.unwrap()`: a value, an `OverflowError`, or a panic. -/
inductive RResult (α : Type) where
  | ok : α → RResult α
  | overflowErr : RResult α
  | panicked : RResult α
deriving DecidableEq, Repr

/-- `bytes_to_frames` (`src/convert.rs`): `value.get() / SYS.frame_size().get()`. -/
def bytes_to_frames (s : System) (b : Nat) : Nat :=
  b / s.frame_size_val

/-- `frames_to_bytes` (`src/convert.rs`): checked multiply by
`frame_size`, then `Bytes::new(n).unwrap()` on success. -/
def frames_to_bytes (s : System) (f : Nat) : RResult Nat :=
  match checked_mul_usize f s.frame_size_val with
  | some n =>
    match Bytes.new s n with
    | some b => .ok b
    | none => .panicked
  | none => .overflowErr

/-- `samples_to_frames` (`src/convert.rs`):
`value.get() / SYS.channel_layout.channels().get()`. -/
def samples_to_frames (s : System) (v : Nat) : Nat :=
  v / s.channel_layout.channels

/-- `frames_to_samples` (`src/convert.rs`): checked multiply by the channel
count, then `Samples::new(n).unwrap()` on success. -/
def frames_to_samples (s : System) (f : Nat) : RResult Nat :=
  match checked_mul_usize f s.channel_layout.channels with
  | some n =>
    match Samples.new s n with
    | some v => .ok v
    | none => .panicked
  | none => .overflowErr

/-- `bytes_to_samples` (`src/convert.rs`), the infallible
`From<Bytes> for Samples`: `Samples::new(value.get() / byte_depth).unwrap()`;
`none` is the panic of that unwrap. -/
def bytes_to_samples (s : System) (b : Nat) : Option Nat :=
  Samples.new s (b / s.sample_type.byte_depth)

/-- `samples_to_bytes` (`src/convert.rs`): checked multiply by the byte
depth, then `Bytes::new(n).unwrap()` on success. -/
def samples_to_bytes (s : System) (v : Nat) : RResult Nat :=
  match checked_mul_usize v s.sample_type.byte_depth with
  | some n =>
    match Bytes.new s n with
    | some b => .ok b
    | none => .panicked
  | none => .overflowErr

/-- `std::time::Duration`: whole seconds (`u64`) and a sub-second nanosecond
part (`u32`, < 10⁹ for a well-formed value). -/
structure Duration where
  secs : Nat
  nanos : Nat
deriving DecidableEq, Repr

/-- `Duration::as_millis`: `secs as u128 * 1_000 + (nanos / 1_000_000) as u128`. -/
def Duration.as_millis (d : Duration) : Nat :=
  d.secs * 1000 + d.nanos / 1000000

/-- `Duration::from_millis(n)`: seconds `n / 1000`, nanoseconds
`(n % 1000) * 1_000_000`. -/
def Duration.from_millis (n : Nat) : Duration :=
  ⟨n / 1000, n % 1000 * 1000000⟩

/-- `Duration::MAX`: `u64::MAX` seconds and 999 999 999 nanoseconds. -/
def DURATION_MAX : Duration := ⟨U64_MAX, 999999999⟩

/-- `duration_to_frames` (`src/convert.rs`): multiply `as_millis()` by the
sample rate in `u128` (checked), divide by 1000, and accept the quotient only
if it fits in `usize`. -/
def duration_to_frames (s : System) (d : Duration) : Option Nat :=
  match (match checked_mul_u128 d.as_millis s.sample_rate with
         | some frames => some (frames / 1000)
         | none => none) with
  | some n => if n ≤ USIZE_MAX then some n else none
  | none => none

/-- `frames_to_duration` (`src/convert.rs`): checked multiply the frame count
by 1000 in `usize`, divide by the sample rate (as `u64`), and return
`Duration::from_millis` of the quotient. -/
def frames_to_duration (s : System) (f : Nat) : Option Duration :=
  match checked_mul_usize f 1000 with
  | some n => some (Duration.from_millis (n / s.sample_rate))
  | none => none

/-- `TryFrom<Samples> for Duration` (`src/convert.rs`): through `Frames`
(`Frames::from(value)` is infallible, then `frames.try_into()`). -/
def samples_to_duration (s : System) (v : Nat) : Option Duration :=
  frames_to_duration s (samples_to_frames s v)

/-- `TryFrom<Duration> for Samples` (`src/convert.rs`): `Frames::try_from`
then `frames.try_into()` (whose unwrap can panic). -/
def duration_to_samples (s : System) (d : Duration) : RResult Nat :=
  match duration_to_frames s d with
  | some f => frames_to_samples s f
  | none => .overflowErr

/-- `TryFrom<Bytes> for Duration` (`src/convert.rs`):
`Samples::<SYS>::from(value).try_into()`; the `From<Bytes> for Samples` step
can panic. -/
def bytes_to_duration (s : System) (b : Nat) : RResult Duration :=
  match bytes_to_samples s b with
  | some v =>
    match samples_to_duration s v with
    | some d => .ok d
    | none => .overflowErr
  | none => .panicked

/-- `Mul<T> for Samples` (`src/samples.rs`):
`Self::new(self.get().mul(rhs)).unwrap()`; the `usize` multiply wraps modulo
2⁶⁴ and the unwrap panics (`none`) when the product breaks the invariant. -/
def samples_mul_scalar (s : System) (v k : Nat) : Option Nat :=
  Samples.new s (v * k % (USIZE_MAX + 1))

/-- `system!(48_000, Mono, i16)`. -/
def SYS_48K_MONO_I16 : System := ⟨48000, .Mono, sampleTypeI16⟩

/-- `system!(8_000, Mono, i16)`. -/
def SYS_8K_MONO_I16 : System := ⟨8000, .Mono, sampleTypeI16⟩

/-- `AUDIO_CD = system!(44_100, Stereo, i16)` (`src/system.rs`). -/
def AUDIO_CD : System := ⟨44100, .Stereo, sampleTypeI16⟩

/-! ### Helper lemmas -/

theorem channels_pos (c : ChannelLayout) : 1 ≤ c.channels := by
  cases c <;> decide

theorem frame_size_val_pos (s : System) (hd : 1 ≤ s.sample_type.byte_depth) :
    1 ≤ s.frame_size_val := by
  unfold System.frame_size_val
  exact Nat.one_le_iff_ne_zero.mpr
    (Nat.mul_ne_zero (Nat.one_le_iff_ne_zero.mp (channels_pos _))
      (Nat.one_le_iff_ne_zero.mp hd))

theorem as_millis_from_millis (m : Nat) : (Duration.from_millis m).as_millis = m := by
  simp only [Duration.from_millis, Duration.as_millis]
  rw [Nat.mul_div_cancel _ (by norm_num : (0 : Nat) < 1000000)]
  omega

theorem duration_to_frames_eq (s : System) (d : Duration) :
    duration_to_frames s d =
      if d.as_millis * s.sample_rate ≤ U128_MAX ∧
          d.as_millis * s.sample_rate / 1000 ≤ USIZE_MAX then
        some (d.as_millis * s.sample_rate / 1000)
      else
        none := by
  unfold duration_to_frames checked_mul_u128
  by_cases h1 : d.as_millis * s.sample_rate ≤ U128_MAX
  · rw [if_pos h1]
    by_cases h2 : d.as_millis * s.sample_rate / 1000 ≤ USIZE_MAX
    · rw [if_pos ⟨h1, h2⟩]
      show (if d.as_millis * s.sample_rate / 1000 ≤ USIZE_MAX then _ else none) = _
      rw [if_pos h2]
    · rw [if_neg fun hc => h2 hc.2]
      show (if d.as_millis * s.sample_rate / 1000 ≤ USIZE_MAX then _ else none) = _
      rw [if_neg h2]
  · rw [if_neg h1, if_neg fun hc => h1 hc.1]

theorem frames_to_duration_eq (s : System) (f : Nat) :
    frames_to_duration s f =
      if f * 1000 ≤ USIZE_MAX then
        some (Duration.from_millis (f * 1000 / s.sample_rate))
      else
        none := by
  unfold frames_to_duration checked_mul_usize
  by_cases h : f * 1000 ≤ USIZE_MAX
  · rw [if_pos h, if_pos h]
  · rw [if_neg h, if_neg h]

theorem bytes_new_mod (s : System) (n b : Nat) (h : Bytes.new s n = some b) :
    b = n ∧ n % s.sample_size = 0 := by
  unfold Bytes.new at h
  split at h
  · cases h
    exact ⟨rfl, by assumption⟩
  · cases h

/-! ### Claim theorems -/

/-- C1: the claim says `Samples::new(n)` returns `Some` iff
`n % channels() == 0`.  The code instead tests `n % frame_size()`: on the
system `{48000 Hz, Mono, i16}` (channels = 1, frame size = 2) the input
`n = 1` satisfies `1 % channels() == 0` yet `Samples::new(1)` returns `None`,
and the `.unwrap()` inside `frames_to_samples` consequently panics on
`Frames(1)` — contradicting the constructor's own doc comment. -/
theorem C1_samples_new_checks_frame_size_not_channels :
    Samples.new SYS_48K_MONO_I16 1 = none ∧
    1 % SYS_48K_MONO_I16.channel_layout.channels = 0 ∧
    frames_to_samples SYS_48K_MONO_I16 1 = .panicked := by
  decide

/-- C3: the claim says that whenever no overflow occurs the two composition
paths agree and Frames→Samples→Frames recovers the original with no panic.
On `{48000 Hz, Mono, i16}` with `f = 1` no overflow occurs, yet
`frames_to_samples` panics (its `Samples::new(1 × 1).unwrap()` fails the
frame-size divisibility check) while `frames_to_bytes` returns `Ok(Bytes(2))`:
the Frames→Samples→Frames round trip is broken and the paths disagree. -/
theorem C3_composition_path_broken_by_panic :
    frames_to_samples SYS_48K_MONO_I16 1 = .panicked ∧
    frames_to_bytes SYS_48K_MONO_I16 1 = .ok 2 ∧
    bytes_to_frames SYS_48K_MONO_I16 2 = 1 := by
  decide

/-- C6: on `{48000 Hz, Mono, 16-bit}`, `Frames(48)` converts to exactly one
millisecond and back to `Frames(48)`, while `Frames(47)` converts to a
0-millisecond duration which converts back to `Frames(0) ≠ Frames(47)`. -/
theorem C6_duration_roundtrip_lossy_below_one_millisecond :
    frames_to_duration SYS_48K_MONO_I16 48 = some (Duration.from_millis 1) ∧
    (Duration.from_millis 1).as_millis = 1 ∧
    duration_to_frames SYS_48K_MONO_I16 (Duration.from_millis 1) = some 48 ∧
    frames_to_duration SYS_48K_MONO_I16 47 = some (Duration.from_millis 0) ∧
    (Duration.from_millis 0).as_millis = 0 ∧
    duration_to_frames SYS_48K_MONO_I16 (Duration.from_millis 0) = some 0 ∧
    (0 : Nat) ≠ 47 := by
  decide

/-- C8: Audio CD scenario (44100 Hz, Stereo, i16): one second gives
`Frames(44100)`, then `Samples(88200)`, then `Bytes(176400)`;
`Bytes(176400)` converts back to exactly one second, and doubling the
samples converts to exactly two seconds. -/
theorem C8_audio_cd_scenario :
    duration_to_frames AUDIO_CD ⟨1, 0⟩ = some 44100 ∧
    frames_to_samples AUDIO_CD 44100 = .ok 88200 ∧
    samples_to_bytes AUDIO_CD 88200 = .ok 176400 ∧
    bytes_to_duration AUDIO_CD 176400 = .ok ⟨1, 0⟩ ∧
    samples_mul_scalar AUDIO_CD 88200 2 = some 176400 ∧
    samples_to_duration AUDIO_CD 176400 = some ⟨2, 0⟩ := by
  decide

/-- C10: the claim says `From<Bytes> for Samples` never panics.  On
`AUDIO_CD`, `Bytes::new(4)` succeeds, but `bytes_to_samples` computes
`Samples::new(4 / 2).unwrap()` and `Samples::new(2)` fails its
frame-size (= 4) divisibility check, so the unwrap panics (`none`). -/
theorem C10_bytes_to_samples_unwrap_panics :
    Bytes.new AUDIO_CD 4 = some 4 ∧
    bytes_to_samples AUDIO_CD 4 = none := by
  decide

/-- C2: for every valid system, `Bytes::new(n)` succeeds iff
`n % frame_size() == 0` (with `frame_size()` not aborting), and every
constructed `Bytes` value satisfies the divisibility invariant. -/
theorem C2_bytes_new_iff_divisible_by_frame_size (s : System) (n : Nat)
    (hv : s.Valid) :
    ∃ fs, s.frame_size = some fs ∧
      ((Bytes.new s n).isSome ↔ n % fs = 0) ∧
      ∀ b, Bytes.new s n = some b → b % fs = 0 := by
  obtain ⟨-, -, -, -, hle⟩ := hv
  refine ⟨s.frame_size_val, ?_, ?_, ?_⟩
  · unfold System.frame_size System.frame_size_val
    rw [if_pos hle]
  · unfold Bytes.new System.sample_size System.frame_size_val
    split
    · simp_all
    · simp_all
  · intro b hb
    obtain ⟨hbn, hmod⟩ := bytes_new_mod s n b hb
    subst hbn
    exact hmod

/-- C2 witness: `Bytes::new(176400)` succeeds on `AUDIO_CD`. -/
theorem C2_witness : (Bytes.new AUDIO_CD 176400).isSome = true := by
  obtain ⟨fs, hfs, hiff, -⟩ :=
    C2_bytes_new_iff_divisible_by_frame_size AUDIO_CD 176400 (by decide)
  have h4 : AUDIO_CD.frame_size = some 4 := by decide
  rw [hfs] at h4
  exact hiff.mpr (by rw [Option.some_inj.mp h4])

/-- C4: `Bytes → Frames` divides by `frame_size()` exactly (the constructed
value's invariant leaves no remainder), and converting back to `Bytes`
returns the original value whenever it fits in `usize`. -/
theorem C4_bytes_to_frames_exact_and_roundtrips (s : System) (n b : Nat)
    (hv : s.Valid) (hb : Bytes.new s n = some b) (hmax : b ≤ USIZE_MAX) :
    bytes_to_frames s b * s.frame_size_val = b ∧
    frames_to_bytes s (bytes_to_frames s b) = .ok b := by
  obtain ⟨-, -, hd, -, -⟩ := hv
  obtain ⟨hbn, hmod⟩ := bytes_new_mod s n b hb
  subst hbn
  have hmod' : b % s.frame_size_val = 0 := hmod
  have hdvd : s.frame_size_val ∣ b := Nat.dvd_of_mod_eq_zero hmod'
  have hkey : b / s.frame_size_val * s.frame_size_val = b := Nat.div_mul_cancel hdvd
  refine ⟨hkey, ?_⟩
  unfold frames_to_bytes bytes_to_frames checked_mul_usize
  rw [hkey, if_pos hmax]
  show (match Bytes.new s b with
        | some b' => RResult.ok b'
        | none => RResult.panicked) = RResult.ok b
  unfold Bytes.new
  rw [if_pos hmod]

/-- C4 witness: `Bytes(176400)` on `AUDIO_CD` divides exactly and round
trips. -/
theorem C4_witness :
    bytes_to_frames AUDIO_CD 176400 * AUDIO_CD.frame_size_val = 176400 ∧
    frames_to_bytes AUDIO_CD (bytes_to_frames AUDIO_CD 176400) = .ok 176400 :=
  C4_bytes_to_frames_exact_and_roundtrips AUDIO_CD 176400 176400 (by decide)
    (by decide) (by decide)

/-- C5: whenever the checked conversions succeed, `duration_to_frames`
returns `⌊as_millis × sample_rate / 1000⌋` (multiply before divide, in that
order) and `frames_to_duration` returns a duration of exactly
`⌊f × 1000 / sample_rate⌋` whole milliseconds. -/
theorem C5_duration_conversion_formulas (s : System) (hv : s.Valid) :
    (∀ d n, duration_to_frames s d = some n →
        n = d.as_millis * s.sample_rate / 1000) ∧
    (∀ f dur, frames_to_duration s f = some dur →
        dur = Duration.from_millis (f * 1000 / s.sample_rate) ∧
        dur.as_millis = f * 1000 / s.sample_rate) := by
  obtain ⟨-, -, -, -, -⟩ := hv
  refine ⟨?_, ?_⟩
  · intro d n h
    rw [duration_to_frames_eq] at h
    split at h
    · exact (Option.some_inj.mp h).symm
    · cases h
  · intro f dur h
    rw [frames_to_duration_eq] at h
    split at h
    · have hd := (Option.some_inj.mp h).symm
      exact ⟨hd, by rw [hd, as_millis_from_millis]⟩
    · cases h

/-- C5 witness: on `{48000 Hz, Mono, i16}`, converting a one-millisecond
duration yields `⌊1 × 48000 / 1000⌋ = 48` frames. -/
theorem C5_witness :
    (48 : Nat) =
      (Duration.from_millis 1).as_millis * SYS_48K_MONO_I16.sample_rate / 1000 :=
  (C5_duration_conversion_formulas SYS_48K_MONO_I16 (by decide)).1
    (Duration.from_millis 1) 48 (by decide)

/-- C7: `Duration::try_from(Frames(usize::MAX))` signals overflow on every
system with a positive sample rate (the `usize` multiply by 1000 fails its
check), and `Frames::try_from(Duration::MAX)` at 8000 Hz signals overflow
(the frame count exceeds `usize::MAX`); neither returns a wrapped value. -/
theorem C7_overflow_signalled (s : System) (_hr : 1 ≤ s.sample_rate) :
    frames_to_duration s USIZE_MAX = none ∧
    duration_to_frames SYS_8K_MONO_I16 DURATION_MAX = none := by
  refine ⟨?_, by decide⟩
  rw [frames_to_duration_eq,
    if_neg (by decide : ¬USIZE_MAX * 1000 ≤ USIZE_MAX)]

/-- C7 witness: both overflow cases at the concrete 8000 Hz mono system. -/
theorem C7_witness :
    frames_to_duration SYS_8K_MONO_I16 USIZE_MAX = none ∧
    duration_to_frames SYS_8K_MONO_I16 DURATION_MAX = none :=
  C7_overflow_signalled SYS_8K_MONO_I16 (by decide)

/-- C9: `frame_size()` returns the product channels × byte depth exactly
when that product is at most 255, and aborts (`none`, the `expect` of the
checked multiplication) exactly when the product exceeds 255. -/
theorem C9_frame_size_is_checked_product (s : System)
    (_h1 : 1 ≤ s.sample_type.byte_depth) (_h2 : s.sample_type.byte_depth ≤ 255) :
    (∀ v, s.frame_size = some v ↔
        (s.channel_layout.channels * s.sample_type.byte_depth ≤ 255 ∧
         v = s.channel_layout.channels * s.sample_type.byte_depth)) ∧
    (s.frame_size = none ↔
        255 < s.channel_layout.channels * s.sample_type.byte_depth) := by
  unfold System.frame_size
  constructor
  · intro v
    split_ifs with h
    · simp only [Option.some_inj]
      constructor
      · intro he
        exact ⟨h, he.symm⟩
      · intro he
        exact he.2.symm
    · constructor
      · intro he
        cases he
      · intro he
        exact absurd he.1 h
  · split_ifs with h
    · constructor
      · intro he
        cases he
      · intro hlt
        omega
    · constructor
      · intro he
        omega
      · intro hlt
        rfl

/-- C9 witness: on `AUDIO_CD` (2 channels × 2 bytes), `frame_size()` is 4. -/
theorem C9_witness : AUDIO_CD.frame_size = some 4 :=
  ((C9_frame_size_is_checked_product AUDIO_CD (by decide) (by decide)).1 4).mpr
    ⟨by decide, by decide⟩

end AudioTime
